import Mathlib

/-!
Verification development for the LAQP log-processing pipeline
(validator → preparation → scoring → aggregation).

Shallow embedding conventions:
* A log line is modelled as its whitespace token list (`List String`), i.e. the
  result of Python's `line.strip().upper().split()`.  All concrete inputs used
  below are already upper-case, so the `.upper()` calls in the source are
  identity and are not modelled separately.  Whitespace tokenisation never
  yields empty tokens, which is recorded as an explicit hypothesis where it
  matters.
* A Python `set` of strings is modelled as a duplicate-free list built with
  `pySetInsert`; only membership and cardinality (`length`) are consumed.
* `int(...)` is modelled by `pyInt` (`String.toNat?` with default `0`); the
  `ValueError` path for non-numeric text is not modelled — no theorem below
  feeds non-numeric text into it.
* Statistics-only fields of the scoring result that no claim consumes
  (`qsos_by_band`, `qsos_by_mode`, `bands_worked`,
  `multipliers_by_band_mode`) are omitted from the state.
-/

/-- Python `list.insert(n, x)`: insert at index `n`, clamping to the end. -/
def pyInsert {α : Type} (n : Nat) (x : α) (l : List α) : List α :=
  l.take n ++ [x] ++ l.drop n

/-- Python `set.add` on a set modelled as a duplicate-free list. -/
def pySetInsert {α : Type} [DecidableEq α] (s : List α) (x : α) : List α :=
  if x ∈ s then s else s ++ [x]

/-- Python `c in s` for a character and a string. -/
def sContains (s : String) (c : Char) : Bool :=
  s.toList.contains c

/-- Helper for `sSplitOn`: splits a character list at the separator. -/
def sSplitOnAux (sep : Char) : List Char → List Char → List String
  | [], acc => [String.mk acc]
  | c :: rest, acc =>
      if c = sep then String.mk acc :: sSplitOnAux sep rest []
      else sSplitOnAux sep rest (acc ++ [c])

/-- Python `s.split(sep)` for a one-character separator (the only separators
the source uses are "/", "," and "-"): splits at every occurrence, keeping
empty pieces. -/
def sSplitOn (sep : Char) (s : String) : List String :=
  sSplitOnAux sep s.toList []

/-- Digits of a decimal numeral, folded to a `Nat`. -/
def digitsVal (cs : List Char) : Nat :=
  cs.foldl (fun n c => n * 10 + (c.toNat - '0'.toNat)) 0

/-- All characters are decimal digits and the string is non-empty
(Python `s.isdigit()`). -/
def isDigits (s : String) : Bool :=
  s ≠ "" && s.toList.all Char.isDigit

/-- Python `int(...)` on the plain decimal numerals that occur in logs;
the `ValueError` path for other text is not modelled and no theorem below
exercises it (the checked fallback value is 0). -/
def pyInt (s : String) : Nat :=
  if isDigits s then digitsVal s.toList else 0

/-- Python `s.lower()`. -/
def sLower (s : String) : String :=
  String.mk (s.toList.map Char.toLower)

/-- Python `s.upper()`. -/
def sUpper (s : String) : String :=
  String.mk (s.toList.map Char.toUpper)

/-! ### config/config.py -/

/-- `config.config.BAND_RANGES` (src/config/config.py lines 74-83):
band number with inclusive kHz range. -/
def BAND_RANGES : List (Nat × Nat × Nat) :=
  [(160, 1800, 2000), (80, 3500, 4000), (40, 7000, 7300), (20, 14000, 14350),
   (15, 21000, 21450), (10, 28000, 29700), (6, 50000, 54000), (2, 144000, 148000)]

/-- `config.config.freq_to_band` (src/config/config.py lines 85-98). -/
def freq_to_band (freq_khz : Nat) : Option Nat :=
  match BAND_RANGES.find? (fun b => b.2.1 ≤ freq_khz && freq_khz ≤ b.2.2) with
  | some b => some b.1
  | none => none

/-- `config.config.VALID_MODES` (line 101). -/
def VALID_MODES : List String :=
  ["CW", "PH", "RY", "DIG", "FM", "SSB", "LSB", "USB", "RTTY", "FT8", "FT4"]

/-- `config.config.PHONE_MODES` (line 104). -/
def PHONE_MODES : List String := ["PH", "FM", "SSB", "LSB", "USB"]

/-- `config.config.CW_DIGITAL_MODES` (line 107). -/
def CW_DIGITAL_MODES : List String := ["CW", "RY", "DIG", "RTTY", "FT8", "FT4"]

def PHONE_QSO_POINTS : Nat := 2
def CW_DIGITAL_QSO_POINTS : Nat := 4
def N5LCC_BONUS : Nat := 100
def ROVER_PARISH_BONUS : Nat := 50

def LOC_DX : Nat := 0
def LOC_NON_LA : Nat := 1
def LOC_LA_FIXED : Nat := 2
def LOC_LA_ROVER : Nat := 3

def MODE_PHONE_ONLY : Nat := 0
def MODE_CW_DIGITAL_ONLY : Nat := 1
def MODE_MIXED : Nat := 2

def POWER_QRP : Nat := 0
def POWER_LOW : Nat := 1
def POWER_HIGH : Nat := 2

def OVERLAY_NONE : Nat := 0
def OVERLAY_WIRES : Nat := 1
def OVERLAY_TB_WIRES : Nat := 2
def OVERLAY_POTA : Nat := 3

/-- `config.config.US_PREFIXES` (lines 151-156). -/
def US_PREFIXES : List String :=
  ["K", "W", "N", "AA", "AB", "AC", "AD", "AE", "AF", "AG", "AH", "AI", "AJ", "AK",
   "KA", "KB", "KC", "KD", "KE", "KF", "KG", "KH", "KI", "KJ", "KK", "KL", "KM",
   "KN", "KO", "KP", "KQ", "KR", "KS", "KT", "KU", "KV", "KW", "KX", "KY", "KZ",
   "NA", "NB", "NC", "ND", "NE", "NF", "NG", "NH", "NI", "NJ", "NK", "NL", "NM",
   "NN", "NO", "NP", "NQ", "NR", "NS", "NT", "NU", "NV", "NW", "NX", "NY", "NZ",
   "WA", "WB", "WC", "WD", "WE", "WF", "WG", "WH", "WI", "WJ", "WK", "WL", "WM",
   "WN", "WO", "WP", "WQ", "WR", "WS", "WT", "WU", "WV", "WW", "WX", "WY", "WZ"]

/-- `config.config.CANADIAN_PREFIXES` (lines 158-161). -/
def CANADIAN_PREFIXES : List String :=
  ["VA", "VE", "VY", "VO", "CF", "CG", "CH", "CI", "CJ", "CK", "CY", "CZ",
   "XJ", "XK", "XL", "XM", "XN", "XO"]

/-- `config.config.get_category_name` (src/config/config.py lines 231-259).
Note: `laqp/core/preparation.py` calls this name without importing it
(a `NameError` at runtime); the function itself is embedded here as the
evident referent. -/
def get_category_name (location_type mode_category : Nat) (is_rover : Bool)
    (power_level overlay : Nat) : String :=
  let loc := if location_type ∈ [0, 1] then "nl"
    else if location_type = 2 then "lf" else "lr"
  let mode := if mode_category = 0 then "ph"
    else if mode_category = 1 then "cw" else "mx"
  let power := if 0 < overlay then "ol"
    else if power_level = 0 then "qp"
    else if power_level = 1 then "lo" else "hi"
  let _ := is_rover  -- parameter present but unused in the source as well
  loc ++ "_" ++ mode ++ "_" ++ power

/-! ### laqp/categories.py -/

/-- `laqp.categories.get_category_short_name` (src/laqp/categories.py lines 76-115). -/
def get_category_short_name (location_type mode_category power_level overlay : Nat) : String :=
  let loc := if location_type ∈ [0, 1] then "nl"
    else if location_type = 2 then "lf" else "lr"
  let mode := if mode_category = 0 then "ph"
    else if mode_category = 1 then "cw" else "mx"
  let power := if 0 < overlay then "ol"
    else if power_level = 0 then "qp"
    else if power_level = 1 then "lo" else "hi"
  loc ++ "_" ++ mode ++ "_" ++ power

/-- `laqp.categories.get_base_category` (lines 118-147). -/
def get_base_category (location_type mode_category power_level : Nat) : String :=
  let loc := if location_type ∈ [0, 1] then "nl"
    else if location_type = 2 then "lf" else "lr"
  let mode := if mode_category = 0 then "ph"
    else if mode_category = 1 then "cw" else "mx"
  let power := if power_level = 0 then "qp"
    else if power_level = 1 then "lo" else "hi"
  loc ++ "_" ++ mode ++ "_" ++ power

/-- `laqp.categories.get_overlay_name` (lines 150-158): `dict.get` returns
`None` both for key 0 and for unknown keys. -/
def get_overlay_name (overlay : Nat) : Option String :=
  if overlay = 1 then some "WIRES"
  else if overlay = 2 then some "TB-WIRES"
  else if overlay = 3 then some "POTA"
  else none

/-! ### laqp/core/preparation.py (class LogPreparation)

The reference lists `parish_list` / `state_province_list` are passed as
explicit parameters (they are loaded into `self` once, upper-cased, at
construction).
-/

/-- `LogPreparation.ambiguous_dx_qth` (src/laqp/core/preparation.py line 41),
a Python set literal; modelled as the list of its elements. -/
def ambiguous_dx_qth : List String :=
  ["ON", "PA", "CT", "TN", "LA", "HI", "OK", "CO", "OH"]

/-- `LogPreparation.convert_khz_to_band` (lines 43-54): band numbers pass
through; otherwise the first matching kHz range wins; 0 means invalid. -/
def convert_khz_to_band (freq_khz : Nat) : Nat :=
  if freq_khz ∈ [160, 80, 40, 20, 15, 10, 6, 2] then freq_khz
  else match BAND_RANGES.find? (fun b => b.2.1 ≤ freq_khz && freq_khz ≤ b.2.2) with
    | some b => b.1
    | none => 0

/-- `LogPreparation.get_callsign_prefix` (lines 56-61): the characters before
the first digit, or the whole callsign if it has no digit.  (Renamed: the
source spelling is not usable as a Lean identifier here.) -/
def get_callsign_prefix_part (call : String) : String :=
  String.mk (call.toList.takeWhile (fun c => ¬ c.isDigit))

/-- `LogPreparation.is_us_callsign` (lines 63-70). -/
def is_us_callsign (call : String) : Bool :=
  let pfx := get_callsign_prefix_part call
  if pfx = "" then false
  else if pfx.toList.headD ' ' ∈ ['K', 'N', 'W'] then true
  else pfx ∈ US_PREFIXES

/-- `LogPreparation.is_canadian_callsign` (lines 72-75). -/
def is_canadian_callsign (call : String) : Bool :=
  get_callsign_prefix_part call ∈ CANADIAN_PREFIXES

/-- `LogPreparation.is_dx_callsign` (lines 77-79). -/
def is_dx_callsign (call : String) : Bool :=
  ¬ (is_us_callsign call || is_canadian_callsign call)

/-- `LogPreparation.is_la_parish` (lines 81-83). -/
def is_la_parish (parish_list : List String) (qth : String) : Bool :=
  qth ∈ parish_list

/-- `LogPreparation.is_non_la_state_province` (lines 85-87). -/
def is_non_la_state_province (state_province_list : List String) (qth : String) : Bool :=
  qth ∈ state_province_list

/-- `LogPreparation.needs_dx_suffix` (lines 89-118) on the line's token list:
1 = sent QTH needs the DX marker, 2 = received QTH needs it, 0 = no change.
Sent side takes precedence. -/
def needs_dx_suffix (parts : List String) : Nat :=
  -- the source's locals sent_call / sent_qth / rcvd_call / rcvd_qth
  -- = parts[5] / parts[7] / parts[8] / parts[10] appear inlined as parts.getD
  if parts.headD "" ≠ "QSO:" ∨ parts.length < 11 then 0
  else if is_dx_callsign (parts.getD 5 "") ∧ parts.getD 7 "" ∈ ambiguous_dx_qth then 1
  else if is_dx_callsign (parts.getD 8 "") ∧ parts.getD 10 "" ∈ ambiguous_dx_qth then 2
  else 0

/-- `LogPreparation.reformat_qso_line` (lines 120-159) on token lists: the
source builds each output line as an f-string of the 11 fields joined by
single spaces; its whitespace token list is the list below.  One output line
per "/"-separated received-QTH code. -/
def reformat_qso_line (parts : List String) (change_code : Nat) : List (List String) :=
  if parts.length < 11 then
    [parts ++ ["[ERROR:", "Missing", "QSO", "elements]"]]
  else
    let band := toString (convert_khz_to_band (pyInt (parts.getD 1 "")))
    let sent_call := (sSplitOn '/' (parts.getD 5 "")).headD ""
    let rcvd_call := (sSplitOn '/' (parts.getD 8 "")).headD ""
    let rcvd_qth_list := sSplitOn '/' (parts.getD 10 "")
    rcvd_qth_list.map (fun qth =>
      if change_code = 0 then
        [parts.getD 0 "", band, parts.getD 2 "", parts.getD 3 "", parts.getD 4 "",
         sent_call, parts.getD 6 "", parts.getD 7 "", rcvd_call, parts.getD 9 "", qth]
      else if change_code = 1 then
        [parts.getD 0 "", band, parts.getD 2 "", parts.getD 3 "", parts.getD 4 "",
         sent_call, parts.getD 6 "", parts.getD 7 "" ++ "DX", rcvd_call, parts.getD 9 "", qth]
      else
        [parts.getD 0 "", band, parts.getD 2 "", parts.getD 3 "", parts.getD 4 "",
         sent_call, parts.getD 6 "", parts.getD 7 "", rcvd_call, parts.getD 9 "", qth ++ "DX"])

/-- Scan loop of `LogPreparation.determine_location_type` (lines 171-191),
with the `sent_parishes` accumulator made explicit; returns at the first
contact whose sending callsign is DX or whose sent QTH is a non-LA
state/province. -/
def determine_location_type_go (parish_list state_province_list : List String)
    (header_station : String) (header_fixed : Bool) :
    List (List String) → List String → Nat
  | [], sent_parishes =>
      -- lines 193-210: the station is in Louisiana
      let unique_parishes := sent_parishes.dedup
      if header_fixed then LOC_LA_FIXED
      else if header_station ∈ ["MOBILE", "ROVER"] then LOC_LA_ROVER
      else if 1 < unique_parishes.length then LOC_LA_ROVER
      else LOC_LA_FIXED
  | parts :: rest, sent_parishes =>
      -- the source's locals sent_call = parts[5] and sent_qth = parts[7]
      -- appear inlined as parts.getD below
      if parts.headD "" ≠ "QSO:" ∨ parts.length < 11 then
        determine_location_type_go parish_list state_province_list header_station
          header_fixed rest sent_parishes
      else if is_dx_callsign (parts.getD 5 "") then LOC_DX
      else if is_non_la_state_province state_province_list (parts.getD 7 "") then LOC_NON_LA
      else if is_la_parish parish_list (parts.getD 7 "") then
        determine_location_type_go parish_list state_province_list header_station
          header_fixed rest (sent_parishes ++ [parts.getD 7 ""])
      else
        determine_location_type_go parish_list state_province_list header_station
          header_fixed rest sent_parishes

/-- `LogPreparation.determine_location_type` (lines 161-210). -/
def determine_location_type (parish_list state_province_list : List String)
    (qso_lines : List (List String)) (header_station : String)
    (header_fixed : Bool) : Nat :=
  determine_location_type_go parish_list state_province_list header_station
    header_fixed qso_lines []

/-- `LogPreparation.determine_mode_category` (lines 212-246): flags are
(has_cw, has_digital, has_phone); only the modes CW, DG, RY, PH, FM are
inspected. -/
def determine_mode_category (qso_lines : List (List String)) : Nat :=
  let flags := qso_lines.foldl (fun (f : Bool × Bool × Bool) parts =>
    if parts.headD "" ≠ "QSO:" ∨ parts.length < 11 then f
    else
      let mode := parts.getD 2 ""
      if mode = "CW" then (true, f.2.1, f.2.2)
      else if mode ∈ ["DG", "RY"] then (f.1, true, f.2.2)
      else if mode ∈ ["PH", "FM"] then (f.1, f.2.1, true)
      else f) (false, false, false)
  let has_cw_digital := flags.1 || flags.2.1
  let has_phone := flags.2.2
  if has_cw_digital ∧ ¬ has_phone = true then MODE_CW_DIGITAL_ONLY
  else if has_phone ∧ ¬ has_cw_digital = true then MODE_PHONE_ONLY
  else MODE_MIXED

/-- `LogPreparation.determine_power_level` (lines 248-262). -/
def determine_power_level (header_power : String) : Nat :=
  if header_power = "QRP" then POWER_QRP
  else if header_power = "LOW" then POWER_LOW
  else POWER_HIGH

/-- `LogPreparation.determine_overlay` (lines 264-281). -/
def determine_overlay (header_overlay : String) : Nat :=
  if header_overlay = "WIRES" then OVERLAY_WIRES
  else if header_overlay = "TB-WIRES" then OVERLAY_TB_WIRES
  else if header_overlay = "POTA" then OVERLAY_POTA
  else OVERLAY_NONE

/-- Loop state of `LogPreparation.prepare_log` (lines 290-336). -/
structure PrepScan where
  prepared_lines : List (List String) := []
  qso_lines : List (List String) := []
  callsign : String := ""
  header_power : String := "LOW"
  header_station : String := "FIXED"
  header_overlay : String := ""
  header_fixed : Bool := false
deriving Repr, DecidableEq

/-- One iteration of the read loop of `prepare_log` (lines 301-336). -/
def prepare_log_step (s : PrepScan) (parts : List String) : PrepScan :=
  match parts with
  | [] => s
  | tag :: _ =>
    if tag = "CALLSIGN:" then
      { s with callsign := parts.getD 1 "" }
    else if tag = "CATEGORY-POWER:" then
      { s with header_power := parts.getD 1 "LOW" }
    else if tag = "CATEGORY-STATION:" then
      let hs := parts.getD 1 "FIXED"
      { s with header_station := hs,
               header_fixed := if hs ∈ ["FIXED", "PORTABLE"] then true else s.header_fixed }
    else if tag = "CATEGORY-OVERLAY:" then
      { s with header_overlay := parts.getD 1 "" }
    else if tag = "QSO:" then
      let change_code := needs_dx_suffix parts
      { s with qso_lines := s.qso_lines ++ [parts],
               prepared_lines := s.prepared_lines ++ reformat_qso_line parts change_code }
    else
      { s with prepared_lines := s.prepared_lines ++ [parts] }

/-- Category information returned by `prepare_log` (lines 357-365). -/
structure PrepResult where
  prepared : List (List String)
  callsign : String
  location_type : Nat
  is_rover : Bool
  mode_category : Nat
  power_level : Nat
  overlay : Nat
  category_name : String
deriving Repr, DecidableEq

/-- `LogPreparation.prepare_log` (lines 283-365) on a log given as a list of
token lists: parses headers, rewrites QSO lines, derives the category and
inserts the synthetic `TQP-CATEGORY:` line at index 1 of the prepared lines.
(The source calls `get_category_name` without importing it — a `NameError` at
runtime; the evident referent `config.config.get_category_name` is used
here.) -/
def prepare_log (parish_list state_province_list : List String)
    (lines : List (List String)) : PrepResult :=
  let s := lines.foldl prepare_log_step {}
  let location_type := determine_location_type parish_list state_province_list
    s.qso_lines s.header_station s.header_fixed
  let is_rover := location_type = LOC_LA_ROVER
  let mode_category := determine_mode_category s.qso_lines
  let power_level := determine_power_level s.header_power
  let overlay := determine_overlay s.header_overlay
  let category_name := get_category_name location_type mode_category is_rover
    power_level overlay
  let prepared := pyInsert 1 ["TQP-CATEGORY:", category_name] s.prepared_lines
  { prepared := prepared, callsign := s.callsign, location_type := location_type,
    is_rover := is_rover, mode_category := mode_category,
    power_level := power_level, overlay := overlay, category_name := category_name }

/-! ### laqp/core/scoring.py (class ScoreCalculator)

The result dict of `score_log` is modelled by `ScoreResult`; the
statistics-only entries `qsos_by_band`, `qsos_by_mode`, `bands_worked` and
`multipliers_by_band_mode` (never consulted by any claim, and the last one
never populated by the source) are omitted, and with them the
`_freq_to_band` call whose only use is the `qsos_by_band` tally.
-/

/-- Scoring state: the result dict initialised at
src/laqp/core/scoring.py lines 80-103. -/
structure ScoreResult where
  callsign : String := ""
  category : String := ""
  base_category : String := ""
  overlay : Option String := none
  location_type : Nat := LOC_NON_LA
  mode_category : Nat := MODE_MIXED
  power_level : Nat := POWER_LOW
  final_score : Nat := 0
  qso_points : Nat := 0
  total_qsos : Nat := 0
  valid_qsos : Nat := 0
  multipliers : Nat := 0
  parishes_worked : List String := []
  states_worked : List String := []
  provinces_worked : List String := []
  dx_worked : List String := []
  parishes_activated : Nat := 0
  worked_n5lcc : Bool := false
deriving Repr, DecidableEq

/-- The Canadian province codes inlined at src/laqp/core/scoring.py line 186. -/
def PROVINCE_CODES : List String :=
  ["AB", "BC", "MB", "NB", "NL", "NS", "NT", "NU", "ON", "PE", "QC", "SK", "YT"]

/-- One iteration of the read loop of `ScoreCalculator.score_log`
(src/laqp/core/scoring.py lines 107-204).  The sent-QTH tracking block for
rovers (lines 198-204) ends in `pass` in the source and therefore changes
nothing. -/
def score_log_step (parishes states_provinces : List String)
    (r : ScoreResult) (parts : List String) : ScoreResult :=
  match parts with
  | [] => r
  | tag :: _ =>
    if tag = "CALLSIGN:" then
      { r with callsign := parts.getD 1 "" }
    else if tag = "LAQP-CATEGORY:" then
      if 1 < parts.length then
        let cat_parts := sSplitOn ',' (parts.getD 1 "")
        if 4 ≤ cat_parts.length then
          let lt := pyInt (cat_parts.getD 0 "")
          let mc := pyInt (cat_parts.getD 1 "")
          let pl := pyInt (cat_parts.getD 2 "")
          let ov := pyInt (cat_parts.getD 3 "")
          { r with location_type := lt, mode_category := mc, power_level := pl,
                   category := get_category_short_name lt mc pl ov,
                   base_category := get_base_category lt mc pl,
                   overlay := get_overlay_name ov }
        else r
      else r
    else if tag = "QSO:" then
      let r := { r with total_qsos := r.total_qsos + 1 }
      if 11 ≤ parts.length then
        let mode := parts.getD 2 ""
        let call_rcvd := parts.getD 8 ""
        let qth_rcvd := parts.getD 10 ""
        let qso_points :=
          if mode ∈ PHONE_MODES then PHONE_QSO_POINTS
          else if mode ∈ CW_DIGITAL_MODES then CW_DIGITAL_QSO_POINTS
          else PHONE_QSO_POINTS
        let r := { r with qso_points := r.qso_points + qso_points,
                          valid_qsos := r.valid_qsos + 1 }
        let r :=
          if qth_rcvd ∈ parishes then
            { r with parishes_worked := pySetInsert r.parishes_worked qth_rcvd }
          else if qth_rcvd ∈ states_provinces then
            if qth_rcvd ∈ PROVINCE_CODES then
              { r with provinces_worked := pySetInsert r.provinces_worked qth_rcvd }
            else
              { r with states_worked := pySetInsert r.states_worked qth_rcvd }
          else
            { r with dx_worked := pySetInsert r.dx_worked qth_rcvd }
        if call_rcvd = "N5LCC" then { r with worked_n5lcc := true } else r
      else r
    else r

/-- `ScoreCalculator.score_log` (src/laqp/core/scoring.py lines 51-237):
read loop, then multiplier count (lines 206-219: location scope only — the
"per band/mode" rule stated in the comments is left "simplified"), final
score (line 222), N5LCC bonus (lines 225-226) and rover activation bonus
(lines 228-232, computed from `parishes_worked`). -/
def score_log (parishes states_provinces : List String)
    (lines : List (List String)) : ScoreResult :=
  let r := lines.foldl (score_log_step parishes states_provinces) {}
  let r := { r with multipliers :=
    if r.location_type ∈ [LOC_DX, LOC_NON_LA] then
      r.parishes_worked.length
    else
      r.parishes_worked.length + r.states_worked.length +
        r.provinces_worked.length + r.dx_worked.length }
  let r := { r with final_score := r.qso_points * r.multipliers }
  let r := if r.worked_n5lcc then
      { r with final_score := r.final_score + N5LCC_BONUS } else r
  if r.location_type = LOC_LA_ROVER then
    let pa := r.parishes_worked.length
    { r with parishes_activated := pa,
             final_score := r.final_score + pa * ROVER_PARISH_BONUS }
  else r

/-! ### laqp/core/validator.py

Error-message strings are abbreviated (the source interpolates line numbers
and field values into them); no claim depends on message text, only on the
error/warning lists' emptiness and on the numeric error codes.
-/

/-- `validator.ValidationResult.__init__` defaults
(src/laqp/core/validator.py lines 32-50). -/
structure ValidationResult where
  callsign : String := ""
  is_valid : Bool := true
  errors : List String := []
  warnings : List String := []
  qso_count : Nat := 0
  invalid_qso_count : Nat := 0
  has_valid_power : Bool := true
  has_valid_operator : Bool := true
  has_email : Bool := false
  log_email : String := ""
  log_mode_category : String := ""
  log_power : String := ""
  log_station : String := ""
  log_overlay : String := ""
deriving Repr, DecidableEq

/-- `ValidationResult.add_error` (lines 52-54). -/
def add_error (r : ValidationResult) (message : String) : ValidationResult :=
  { r with errors := r.errors ++ [message], is_valid := false }

/-- `ValidationResult.add_warning` (lines 56-57). -/
def add_warning (r : ValidationResult) (message : String) : ValidationResult :=
  { r with warnings := r.warnings ++ [message] }

/-- `config.config.CONTEST_START_DAY1` = date(2024, 4, 6) (config.py line 26),
as (year, month, day). -/
def CONTEST_START_DAY1 : Nat × Nat × Nat := (2024, 4, 6)

/-- `config.config.CONTEST_END_DAY1` = date(2024, 4, 7) (config.py line 27). -/
def CONTEST_END_DAY1 : Nat × Nat × Nat := (2024, 4, 7)

/-- Lexicographic order on (year, month, day). -/
def dateLE (a b : Nat × Nat × Nat) : Bool :=
  a.1 < b.1 || (a.1 = b.1 && (a.2.1 < b.2.1 || (a.2.1 = b.2.1 && a.2.2 ≤ b.2.2)))

/-- Day count of a month, with the Gregorian leap rule
(`datetime.strptime` rejects impossible calendar dates). -/
def daysInMonth (y m : Nat) : Nat :=
  if m ∈ [1, 3, 5, 7, 8, 10, 12] then 31
  else if m ∈ [4, 6, 9, 11] then 30
  else if y % 4 = 0 ∧ (y % 100 ≠ 0 ∨ y % 400 = 0) then 29
  else 28

/-- `datetime.strptime(s, "%Y-%m-%d").date()`: three dash-separated decimal
fields (year up to 4 digits, month and day up to 2 — `strptime` tolerates
missing zero padding) forming a real calendar date. -/
def parseDate (s : String) : Option (Nat × Nat × Nat) :=
  match sSplitOn '-' s with
  | [ys, ms, ds] =>
    if isDigits ys && isDigits ms && isDigits ds
        && ys.length ≤ 4 && ms.length ≤ 2 && ds.length ≤ 2 then
      let y := digitsVal ys.toList
      let m := digitsVal ms.toList
      let d := digitsVal ds.toList
      if 1 ≤ m ∧ m ≤ 12 ∧ 1 ≤ d ∧ d ≤ daysInMonth y m then some (y, m, d) else none
    else none
  | _ => none

/-- `datetime.strptime(s, "%H%M")` succeeds on a four-digit string iff
HH ≤ 23 and MM ≤ 59 (more lenient 1-3 digit forms are not modelled; no input
below uses them). -/
def parseTimeOk (s : String) : Bool :=
  s.length = 4 && isDigits s
    && digitsVal (s.toList.take 2) ≤ 23 && digitsVal (s.toList.drop 2) ≤ 59

/-- `LogValidator._validate_qso_line` (src/laqp/core/validator.py
lines 311-393) on the line's token list: the first failing check wins;
-1 = too short, 1 = frequency, 2 = mode, 3 = date, 4 = time,
5 = missing callsign, 6 = missing RST, 7 = QTH, 8 = multi-parish warning,
0 = OK. -/
def validate_qso_line (parishes states_provinces : List String)
    (parts : List String) : Int × String :=
  -- the source's locals freq_str / mode / date_str / time_str / call_sent /
  -- rst_sent / qth_sent / call_rcvd / rst_rcvd / qth_rcvd = parts[1]..parts[10]
  -- appear inlined as parts.getD below
  if parts.length < 11 then (-1, "QSO line too short (need at least 11 fields)")
  else if ¬ isDigits (parts.getD 1 "") then (1, "Invalid frequency - not an integer")
  else if (freq_to_band (pyInt (parts.getD 1 ""))).isNone then
    (1, "Invalid frequency (not in a valid contest band)")
  else if parts.getD 2 "" ∉ VALID_MODES then (2, "Invalid mode")
  else
    match parseDate (parts.getD 3 "") with
    | none => (3, "Invalid date format (use YYYY-MM-DD)")
    | some d =>
      if ¬ (dateLE CONTEST_START_DAY1 d ∧ dateLE d CONTEST_END_DAY1) then
        (3, "Date outside contest period")
      else if ¬ parseTimeOk (parts.getD 4 "") then (4, "Invalid time format (use HHMM)")
      else if parts.getD 5 "" = "" ∨ parts.getD 8 "" = "" then (5, "Missing callsign")
      else if parts.getD 6 "" = "" ∨ parts.getD 9 "" = "" then (6, "Missing RST")
      else if parts.getD 7 "" = "" ∨ parts.getD 10 "" = "" then (7, "Missing QTH exchange")
      else if sContains (parts.getD 7 "") '/' ∨ sContains (parts.getD 10 "") '/' then
        (8, "Multi-parish QTH detected (will be split during processing)")
      else if parts.getD 7 "" ∉ parishes ∧ parts.getD 7 "" ∉ states_provinces then
        (7, "Invalid QTH-sent (not a valid parish or state/province)")
      else if parts.getD 10 "" ∉ parishes ∧ parts.getD 10 "" ∉ states_provinces then
        (7, "Invalid QTH-rcvd (not a valid parish or state/province)")
      else (0, "OK")

/-- Loop state of `LogValidator.validate_log_file` (lines 113-120):
the result under construction plus the header flags and the set of modes
seen on QSO lines. -/
structure VScan where
  result : ValidationResult := {}
  has_start : Bool := false
  has_end : Bool := false
  has_power : Bool := false
  has_operator : Bool := false
  qso_modes : List String := []
deriving Repr, DecidableEq

/-- One iteration of the read loop of `validate_log_file` (lines 122-199). -/
def validate_log_step (parishes states_provinces : List String)
    (s : VScan) (parts : List String) : VScan :=
  match parts with
  | [] => s
  | tag :: _ =>
    if tag = "START-OF-LOG:" then
      let s := { s with has_start := true }
      if parts.length < 2 ∨ parts.getD 1 "" ≠ "3.0" then
        { s with result := add_warning s.result "Expected START-OF-LOG: 3.0" }
      else s
    else if tag = "END-OF-LOG:" then { s with has_end := true }
    else if tag = "CALLSIGN:" then
      if parts.length < 2 then
        { s with result := add_error s.result "Missing callsign" }
      else { s with result := { s.result with callsign := parts.getD 1 "" } }
    else if tag = "EMAIL:" then
      if 2 ≤ parts.length then
        { s with result :=
          { s.result with log_email := parts.getD 1 "", has_email := true } }
      else s
    else if tag = "CONTEST:" then
      if parts.length < 2 ∨ parts.getD 1 "" ≠ "LA-QSO-PARTY" then
        { s with result := add_error s.result "CONTEST must be LA-QSO-PARTY" }
      else s
    else if tag = "CATEGORY-POWER:" then
      if 2 ≤ parts.length then
        let s := { s with has_power := true,
                          result := { s.result with log_power := parts.getD 1 "" } }
        if parts.getD 1 "" ∉ ["QRP", "LOW", "HIGH"] then
          { s with result := add_error s.result "CATEGORY-POWER must be QRP, LOW, or HIGH" }
        else s
      else s
    else if tag = "CATEGORY-OPERATOR:" then { s with has_operator := true }
    else if tag = "CATEGORY-STATION:" then
      if 2 ≤ parts.length then
        let s := { s with result := { s.result with log_station := parts.getD 1 "" } }
        if parts.getD 1 "" ∉ ["FIXED", "ROVER", "MOBILE"] then
          { s with result := add_warning s.result "CATEGORY-STATION should be FIXED or ROVER" }
        else s
      else s
    else if tag = "CATEGORY-OVERLAY:" then
      if 2 ≤ parts.length then
        let s := { s with result := { s.result with log_overlay := parts.getD 1 "" } }
        if parts.getD 1 "" ∉ ["WIRES", "TB-WIRES", "POTA"] then
          { s with result := add_warning s.result "CATEGORY-OVERLAY should be WIRES, TB-WIRES, or POTA" }
        else s
      else s
    else if tag = "QSO:" then
      let s := { s with result :=
        { s.result with qso_count := s.result.qso_count + 1 } }
      let ec := (validate_qso_line parishes states_provinces parts).1
      let em := (validate_qso_line parishes states_provinces parts).2
      let s := if 3 ≤ parts.length then
          { s with qso_modes := pySetInsert s.qso_modes (parts.getD 2 "") }
        else s
      if ec = -1 then
        let res := { s.result with invalid_qso_count := s.result.invalid_qso_count + 1 }
        { s with result := add_error res em }
      else if 0 < ec ∧ ec < 8 then
        let res := { s.result with invalid_qso_count := s.result.invalid_qso_count + 1 }
        { s with result := add_error res em }
      else if ec = 8 then
        { s with result := add_warning s.result em }
      else s
    else s

/-- `form_mode_map` (lines 253-257). -/
def form_mode_map (m : String) : String :=
  if m = "mixed" then "MIXED"
  else if m = "cw_digital" then "CW/DIGITAL-ONLY"
  else if m = "phone" then "PHONE-ONLY"
  else ""

/-- `form_overlay_map` (lines 285-290). -/
def form_overlay_map (m : String) : String :=
  if m = "wires" then "WIRES"
  else if m = "tb_wires" then "TB-WIRES"
  else if m = "pota" then "POTA"
  else ""

/-- Post-loop part of `validate_log_file` (lines 204-309): required-field
checks, mode-category derivation from the modes actually used, the optional
web-form cross-checks, and the final `invalid_qso_count` verdict (the last
two only on the upload path, as in the source). -/
def validate_log_finish (upload : Bool) (s : VScan)
    (form_email form_mode form_power form_station form_overlay : Option String) :
    ValidationResult :=
  let r := s.result
  let r := if ¬ s.has_start then add_error r "Missing START-OF-LOG: 3.0" else r
  let r := if ¬ s.has_end then add_error r "Missing END-OF-LOG:" else r
  let r := if r.callsign = "" then add_error r "Missing CALLSIGN:" else r
  let r := if ¬ s.has_power then
      { (add_error r "Missing CATEGORY-POWER:") with has_valid_power := false }
    else r
  let r := if ¬ s.has_operator then
      { (add_warning r "Missing CATEGORY-OPERATOR: (not critical for LA rules)")
        with has_valid_operator := false }
    else r
  let r := if ¬ r.has_email then add_error r "Missing EMAIL:" else r
  let r := if r.qso_count = 0 then add_error r "No QSOs found in log" else r
  let has_phone := ["PH", "FM", "SSB", "LSB", "USB"].any (fun m => m ∈ s.qso_modes)
  let has_cw_digital :=
    ["CW", "RY", "RTTY", "DIG", "FT8", "FT4"].any (fun m => m ∈ s.qso_modes)
  let r := { r with log_mode_category :=
      if has_phone ∧ has_cw_digital then "MIXED"
      else if has_phone then "PHONE-ONLY"
      else if has_cw_digital then "CW/DIGITAL-ONLY"
      else "UNKNOWN" }
  if upload then
    let r := if form_email.isSome ∧ r.log_email ≠ ""
        ∧ sLower r.log_email ≠ sLower (form_email.getD "") then
        add_error r "Email mismatch" else r
    let expected_mode := form_mode_map (form_mode.getD "")
    let r := if form_mode.isSome ∧ expected_mode ≠ ""
        ∧ r.log_mode_category ≠ expected_mode then
        add_error r "Mode category mismatch" else r
    let r := if form_power.isSome ∧ r.log_power ≠ ""
        ∧ r.log_power ≠ sUpper (form_power.getD "") then
        add_error r "Power level mismatch" else r
    let r := if form_station.isSome ∧ r.log_station ≠ ""
        ∧ r.log_station ≠ sUpper (form_station.getD "") ∧ r.log_station ≠ "MOBILE" then
        add_error r "Station type mismatch" else r
    let expected_overlay := form_overlay_map (form_overlay.getD "")
    let r := if form_overlay.isSome then
        if form_overlay ≠ some "none" ∧ r.log_overlay ≠ expected_overlay then
          add_error r "Overlay category mismatch"
        else if form_overlay = some "none" ∧ r.log_overlay ≠ "" then
          add_error r "Overlay category mismatch"
        else r
      else r
    if 0 < r.invalid_qso_count then { r with is_valid := false } else r
  else r

/-- `LogValidator.validate_log_file` (src/laqp/core/validator.py
lines 92-309) on a log given as a list of token lists. -/
def validate_log_file (upload : Bool) (parishes states_provinces : List String)
    (lines : List (List String))
    (form_email form_mode form_power form_station form_overlay : Option String) :
    ValidationResult :=
  validate_log_finish upload
    (lines.foldl (validate_log_step parishes states_provinces) {})
    form_email form_mode form_power form_station form_overlay

/-- `IsValidCall` from the legacy TQP validator
(src/src/laqp/core/validation.py lines 229-235 — not called by
`LogValidator`): alphanumeric-or-has-slash, length at least 3, at least one
digit. -/
def IsValidCall (aCall : String) : Bool :=
  let hasASlash := sContains aCall '/'
  let onlyAlphaNum := aCall.toList.all Char.isAlphanum && aCall ≠ "" || hasASlash
  let atLeastLen3 := 3 ≤ aCall.length
  let atLeastOneNum := aCall.toList.any Char.isDigit
  onlyAlphaNum && atLeastLen3 && atLeastOneNum

/-! ### Aggregation (src/laqp/core/scoring.py, `score_all_logs`)

`all_scores.sort(key=lambda x: x['final_score'], reverse=True)` (line 348)
is Python's stable sort by final score descending with no secondary key.
A stable sort by a key is extensionally unique, so it is embedded as
insertion sort with the relation "left score at least right score"; the same
sort is applied within each category (lines 351-352). -/
def sortAllScores (l : List ScoreResult) : List ScoreResult :=
  l.insertionSort (fun a b => b.final_score ≤ a.final_score)

instance : IsTotal ScoreResult (fun a b => b.final_score ≤ a.final_score) :=
  ⟨fun a b => Nat.le_total b.final_score a.final_score⟩

instance : IsTrans ScoreResult (fun a b => b.final_score ≤ a.final_score) :=
  ⟨fun _ _ _ hab hbc => Nat.le_trans hbc hab⟩

/-! ### Spec-side comparison definitions

These two definitions follow the SPEC's words (spec.md §4.4), not the code;
they exist only to be compared against `score_log` where the two diverge. -/

/-- Spec-side (spec.md §4.4): the multiplier key set — one key per distinct
(band, mode-class, location) triple over the multiplier-eligible contacts of
a prepared log; eligibility is parishes-only for non-Local (DX / non-LA)
logs and every worked location for Local logs. -/
def spec_multiplier_keys (parishes : List String) (location_type : Nat)
    (lines : List (List String)) : List (String × Nat × String) :=
  lines.foldl (fun acc parts =>
    if parts.headD "" = "QSO:" ∧ 11 ≤ parts.length then
      let band := parts.getD 1 ""
      let mode_class := if parts.getD 2 "" ∈ PHONE_MODES then 0 else 1
      let qth := parts.getD 10 ""
      let eligible := if location_type ∈ [LOC_DX, LOC_NON_LA] then
          qth ∈ parishes else True
      if eligible then pySetInsert acc (band, mode_class, qth) else acc
    else acc) []

/-- Spec-side (spec.md §4.4): the set of distinct Local sent-locations of a
prepared log — the parishes the station itself transmitted from, which the
spec multiplies by the per-parish value for the rover activation bonus. -/
def spec_sent_parishes (parishes : List String)
    (lines : List (List String)) : List String :=
  lines.foldl (fun acc parts =>
    if parts.headD "" = "QSO:" ∧ 11 ≤ parts.length ∧ parts.getD 7 "" ∈ parishes then
      pySetInsert acc (parts.getD 7 "")
    else acc) []

/-! ### Sample reference data

Concrete stand-ins for the two reference files (`la_parishes.txt`,
`wve_abbrevs.txt`): a few Louisiana parish codes and a few state/province
codes, enough for every concrete log below. -/

def SAMPLE_PARISHES : List String := ["ORLE", "JEFF", "CADD", "EBR"]

def SAMPLE_STATES : List String := ["TX", "MS", "MA", "ON", "QC"]

/-! ### Concrete inputs used by the theorems below -/

/-- A complete valid fixed Louisiana log, as read by `prepare_log`. -/
def C1_input : List (List String) :=
  [["START-OF-LOG:", "3.0"],
   ["CALLSIGN:", "W5AAA"],
   ["EMAIL:", "AAA@EXAMPLE.COM"],
   ["CATEGORY-POWER:", "LOW"],
   ["CATEGORY-STATION:", "FIXED"],
   ["QSO:", "7200", "PH", "2024-04-06", "1500", "W5AAA", "59", "ORLE", "K1XYZ", "59", "MA"],
   ["END-OF-LOG:"]]

/-- A prepared non-LA log: the same station and parish worked on two bands
(40 m and 20 m). -/
def C2_lines : List (List String) :=
  [["LAQP-CATEGORY:", "1,2,1,0"],
   ["QSO:", "40", "CW", "2024-04-06", "1400", "K1AA", "599", "MA", "W5AAA", "599", "ORLE"],
   ["QSO:", "20", "CW", "2024-04-06", "1410", "K1AA", "599", "MA", "W5AAA", "599", "ORLE"]]

/-- A prepared LA-rover log transmitting from a single parish (ORLE) while
working stations in two parishes (JEFF, CADD). -/
def C3_lines : List (List String) :=
  [["LAQP-CATEGORY:", "3,2,1,0"],
   ["QSO:", "40", "CW", "2024-04-06", "1400", "W5AAA", "599", "ORLE", "K5BB", "599", "JEFF"],
   ["QSO:", "40", "CW", "2024-04-06", "1410", "W5AAA", "599", "ORLE", "K5CC", "599", "CADD"]]

/-- A contact whose sending station is US with a non-LA sent QTH (TX). -/
def C4_line_regional : List String :=
  ["QSO:", "7040", "CW", "2024-04-06", "1400", "W5AAA", "599", "TX", "K5BBB", "599", "ORLE"]

/-- A contact whose sending callsign (DL1AAA) classifies as DX. -/
def C4_line_dx : List String :=
  ["QSO:", "7040", "CW", "2024-04-06", "1405", "DL1AAA", "599", "TX", "K5BBB", "599", "JEFF"]

/-- A contact that triggers neither the DX nor the non-LA early return
(US sending callsign, parish sent QTH). -/
def C4_line_local : List String :=
  ["QSO:", "7040", "CW", "2024-04-06", "1400", "W5AAA", "599", "ORLE", "K5BBB", "599", "JEFF"]

/-- A single SSB contact (SSB is in `VALID_MODES` and in `PHONE_MODES`). -/
def C5_ssb_line : List String :=
  ["QSO:", "14250", "SSB", "2024-04-06", "1500", "W5AAA", "59", "ORLE", "K5BBB", "59", "JEFF"]

/-- A QSO line whose sent callsign "AB" is two letters with no digit, with
every other field valid. -/
def C7_qso_ab : List String :=
  ["QSO:", "7040", "CW", "2024-04-06", "1400", "AB", "599", "ORLE", "W5XYZ", "599", "JEFF"]

/-- A contact claiming two parishes in its received location field. -/
def C8_parts : List String :=
  ["QSO:", "7200", "PH", "2024-04-06", "1500", "W5AAA", "59", "ORLE", "K1XYZ", "59", "ORLE/JEFF"]

/-- A prepared log with no `LAQP-CATEGORY:` line. -/
def C9_lines : List (List String) :=
  [["CALLSIGN:", "W5AAA"],
   ["QSO:", "40", "CW", "2024-04-06", "1400", "K1AA", "599", "MA", "W5AAA", "599", "ORLE"]]

/-- Two score results with equal final scores and different callsigns. -/
def scoreA : ScoreResult := { callsign := "K5AAA", final_score := 100 }

/-- See `scoreA`. -/
def scoreB : ScoreResult := { callsign := "K5BBB", final_score := 100 }

/-- Invariant of `ValidationResult` maintained by every validator operation:
validity is exactly emptiness of the error list, and a positive invalid-QSO
count certifies that at least one error was recorded. -/
def VRInv (r : ValidationResult) : Prop :=
  (r.is_valid = true ↔ r.errors = []) ∧ (0 < r.invalid_qso_count → r.errors ≠ [])

/-! ## Theorems -/

/-- Helper: `getD` at an in-range index is a member of the list. -/
theorem getD_mem_of_lt {α : Type} (l : List α) (d : α) (n : Nat)
    (h : n < l.length) : l.getD n d ∈ l := by
  rw [List.getD_eq_getElem l d h]
  exact List.getElem_mem h

/-- Claim C1 (code_bug evidence): on a concrete valid Louisiana fixed log the
Normalizer derives the category (LA-fixed, phone-only, low, no overlay) and
inserts its tag as the second prepared line — but that tag is
`TQP-CATEGORY:` with a short name, while `score_log` only consumes
`LAQP-CATEGORY:` with four comma-separated codes, so scoring the prepared
log leaves the Scorer's category at its defaults (non-LA, mixed, low, no
overlay) instead of the assignment the Normalizer derived. -/
theorem C1_category_handoff_eval :
    (prepare_log SAMPLE_PARISHES SAMPLE_STATES C1_input).location_type = LOC_LA_FIXED ∧
    (prepare_log SAMPLE_PARISHES SAMPLE_STATES C1_input).mode_category = MODE_PHONE_ONLY ∧
    (prepare_log SAMPLE_PARISHES SAMPLE_STATES C1_input).power_level = POWER_LOW ∧
    (prepare_log SAMPLE_PARISHES SAMPLE_STATES C1_input).overlay = OVERLAY_NONE ∧
    (prepare_log SAMPLE_PARISHES SAMPLE_STATES C1_input).prepared.getD 1 []
      = ["TQP-CATEGORY:", "lf_ph_lo"] ∧
    (score_log SAMPLE_PARISHES SAMPLE_STATES
      (prepare_log SAMPLE_PARISHES SAMPLE_STATES C1_input).prepared).location_type
      = LOC_NON_LA ∧
    (score_log SAMPLE_PARISHES SAMPLE_STATES
      (prepare_log SAMPLE_PARISHES SAMPLE_STATES C1_input).prepared).mode_category
      = MODE_MIXED ∧
    (score_log SAMPLE_PARISHES SAMPLE_STATES
      (prepare_log SAMPLE_PARISHES SAMPLE_STATES C1_input).prepared).power_level
      = POWER_LOW ∧
    (score_log SAMPLE_PARISHES SAMPLE_STATES
      (prepare_log SAMPLE_PARISHES SAMPLE_STATES C1_input).prepared).overlay
      = none := by
  decide

/-- Claim C2 (code_bug evidence): on a non-LA log working the same parish on
two different bands, `score_log` counts 1 multiplier (distinct eligible
locations only — the "per band/mode" rule announced in its own comments is
left "simplified"), while the spec-side key set of distinct
(band, mode-class, location) triples has 2 elements. -/
theorem C2_multiplier_eval :
    (score_log SAMPLE_PARISHES SAMPLE_STATES C2_lines).location_type = LOC_NON_LA ∧
    (score_log SAMPLE_PARISHES SAMPLE_STATES C2_lines).multipliers = 1 ∧
    (spec_multiplier_keys SAMPLE_PARISHES LOC_NON_LA C2_lines).length = 2 := by
  decide

/-- Claim C3 (code_bug evidence): on a rover log that transmits from one
parish (ORLE) and works two parishes (JEFF, CADD), `score_log` sets
`parishes_activated` to 2 — the count of parishes WORKED — and adds
2 × 50 bonus (final 2·4·2 + 100 = 116), while the spec-side count of
distinct Local sent-locations is 1 (claimed bonus 50, final 66). -/
theorem C3_rover_bonus_eval :
    (score_log SAMPLE_PARISHES SAMPLE_STATES C3_lines).location_type = LOC_LA_ROVER ∧
    (spec_sent_parishes SAMPLE_PARISHES C3_lines).length = 1 ∧
    (score_log SAMPLE_PARISHES SAMPLE_STATES C3_lines).qso_points = 8 ∧
    (score_log SAMPLE_PARISHES SAMPLE_STATES C3_lines).multipliers = 2 ∧
    (score_log SAMPLE_PARISHES SAMPLE_STATES C3_lines).parishes_activated = 2 ∧
    (score_log SAMPLE_PARISHES SAMPLE_STATES C3_lines).final_score = 116 := by
  decide

/-- Claim C4 (counterexample): a log whose first contact has a Regional
(non-LA) sent location and whose second contact has a Foreign (DX) sending
callsign resolves to `LOC_NON_LA`, not `LOC_DX` — the scan returns at the
first match, so the claimed whole-log Foreign precedence is false. -/
theorem C4_counterexample :
    is_dx_callsign (C4_line_dx.getD 5 "") = true ∧
    determine_location_type SAMPLE_PARISHES SAMPLE_STATES
      [C4_line_regional, C4_line_dx] "FIXED" true = LOC_NON_LA ∧
    LOC_NON_LA ≠ LOC_DX := by
  decide

/-- Claim C5 (code_bug evidence): a log consisting of a single SSB contact —
SSB is a valid mode and a phone mode — is classified `MODE_MIXED` by the
Normalizer's `determine_mode_category` (which only inspects CW/DG/RY/PH/FM),
while the validator's own mode derivation labels the same log
"PHONE-ONLY". -/
theorem C5_mode_category_eval :
    "SSB" ∈ VALID_MODES ∧
    "SSB" ∈ PHONE_MODES ∧
    determine_mode_category [C5_ssb_line] = MODE_MIXED ∧
    MODE_MIXED ≠ MODE_PHONE_ONLY ∧
    (validate_log_file false SAMPLE_PARISHES SAMPLE_STATES [C5_ssb_line]
      none none none none none).log_mode_category = "PHONE-ONLY" := by
  decide

/-- Claim C6 (counterexample): two score results with equal final scores —
the two orders of the same two-element collection produce different overall
orders, hence different rank assignments: the sort has no secondary key and
keeps ties in input order. -/
theorem C6_counterexample :
    scoreA ≠ scoreB ∧
    (sortAllScores [scoreA, scoreB]).map ScoreResult.callsign = ["K5AAA", "K5BBB"] ∧
    (sortAllScores [scoreB, scoreA]).map ScoreResult.callsign = ["K5BBB", "K5AAA"] := by
  decide

/-- Claim C7 (counterexample): the sent callsign "AB" — two characters, all
letters, no digit — fails the legacy shape rule `IsValidCall`, yet
`_validate_qso_line` accepts the line outright (code 0, "OK"): no
BadCallsign is reported. -/
theorem C7_counterexample :
    IsValidCall "AB" = false ∧
    validate_qso_line SAMPLE_PARISHES SAMPLE_STATES C7_qso_ab = (0, "OK") := by
  decide

/-- Claim C7 (amended): for every QSO line with at least 11 whitespace fields
(whitespace tokens are never empty, stated as a hypothesis of the token
model), `_validate_qso_line` never reports a callsign error: its only
callsign check is non-emptiness of the two callsign tokens (code 5), which
cannot fire, so no callsign-shape rule (alphanumeric-plus-slash, length ≥ 3,
contains a digit) is enforced — that rule exists only in the legacy TQP
`IsValidCall`, which this validator does not call. -/
theorem C7_no_callsign_check (parishes states_provinces : List String)
    (parts : List String) (hlen : 11 ≤ parts.length)
    (hne : ∀ t ∈ parts, t ≠ "") :
    (validate_qso_line parishes states_provinces parts).1 ≠ 5 := by
  have h5 : parts.getD 5 "" ≠ "" := hne _ (getD_mem_of_lt parts "" 5 (by omega))
  have h8 : parts.getD 8 "" ≠ "" := hne _ (getD_mem_of_lt parts "" 8 (by omega))
  intro hc
  unfold validate_qso_line at hc
  rw [if_neg (by omega)] at hc
  by_cases h1 : ¬ isDigits (parts.getD 1 "") = true
  · rw [if_pos h1] at hc; exact absurd hc (by decide)
  rw [if_neg h1] at hc
  by_cases h2 : (freq_to_band (pyInt (parts.getD 1 ""))).isNone = true
  · rw [if_pos h2] at hc; exact absurd hc (by decide)
  rw [if_neg h2] at hc
  by_cases h3 : parts.getD 2 "" ∉ VALID_MODES
  · rw [if_pos h3] at hc; exact absurd hc (by decide)
  rw [if_neg h3] at hc
  rcases hd : parseDate (parts.getD 3 "") with _ | d
  · rw [hd] at hc; dsimp only at hc; exact absurd hc (by decide)
  rw [hd] at hc
  dsimp only at hc
  by_cases h4 : ¬ (dateLE CONTEST_START_DAY1 d = true ∧ dateLE d CONTEST_END_DAY1 = true)
  · rw [if_pos h4] at hc; exact absurd hc (by decide)
  rw [if_neg h4] at hc
  by_cases h4t : ¬ parseTimeOk (parts.getD 4 "") = true
  · rw [if_pos h4t] at hc; exact absurd hc (by decide)
  rw [if_neg h4t] at hc
  by_cases h5c : parts.getD 5 "" = "" ∨ parts.getD 8 "" = ""
  · rcases h5c with h | h
    · exact h5 h
    · exact h8 h
  rw [if_neg h5c] at hc
  by_cases h6 : parts.getD 6 "" = "" ∨ parts.getD 9 "" = ""
  · rw [if_pos h6] at hc; exact absurd hc (by decide)
  rw [if_neg h6] at hc
  by_cases h7 : parts.getD 7 "" = "" ∨ parts.getD 10 "" = ""
  · rw [if_pos h7] at hc; exact absurd hc (by decide)
  rw [if_neg h7] at hc
  by_cases h8s : sContains (parts.getD 7 "") '/' = true ∨ sContains (parts.getD 10 "") '/' = true
  · rw [if_pos h8s] at hc; exact absurd hc (by decide)
  rw [if_neg h8s] at hc
  by_cases h9 : parts.getD 7 "" ∉ parishes ∧ parts.getD 7 "" ∉ states_provinces
  · rw [if_pos h9] at hc; exact absurd hc (by decide)
  rw [if_neg h9] at hc
  by_cases h10 : parts.getD 10 "" ∉ parishes ∧ parts.getD 10 "" ∉ states_provinces
  · rw [if_pos h10] at hc; exact absurd hc (by decide)
  rw [if_neg h10] at hc
  exact absurd hc (by decide)

/-- Claim C7 (amended) witness at the concrete line `C7_qso_ab`. -/
theorem C7_no_callsign_check_witness :
    (validate_qso_line SAMPLE_PARISHES SAMPLE_STATES C7_qso_ab).1 ≠ 5 :=
  C7_no_callsign_check SAMPLE_PARISHES SAMPLE_STATES C7_qso_ab
    (by decide) (by decide)

/-- Helper for claim C4: the scan loop of `determine_location_type` returns
at the first triggering contact (DX sending callsign or non-LA sent QTH),
whatever the parish accumulator holds. -/
theorem determine_location_type_go_first_match
    (P S : List String) (hs : String) (hf : Bool)
    (l : List String) (post : List (List String))
    (hql : l.headD "" = "QSO:") (hlen : 11 ≤ l.length)
    (htrig : is_dx_callsign (l.getD 5 "") = true ∨
      is_non_la_state_province S (l.getD 7 "") = true) :
    ∀ (pre : List (List String)) (acc : List String),
      (∀ q ∈ pre, ¬ (q.headD "" = "QSO:" ∧ 11 ≤ q.length ∧
          (is_dx_callsign (q.getD 5 "") = true ∨
           is_non_la_state_province S (q.getD 7 "") = true))) →
      determine_location_type_go P S hs hf (pre ++ l :: post) acc =
        (if is_dx_callsign (l.getD 5 "") then LOC_DX else LOC_NON_LA) := by
  intro pre
  induction pre with
  | nil =>
    intro acc _
    show determine_location_type_go P S hs hf (l :: post) acc = _
    unfold determine_location_type_go
    rw [if_neg (by push_neg; exact ⟨hql, by omega⟩)]
    by_cases hdx : is_dx_callsign (l.getD 5 "") = true
    · rw [if_pos hdx, if_pos hdx]
    · have hreg : is_non_la_state_province S (l.getD 7 "") = true := by
        rcases htrig with h | h
        · exact absurd h hdx
        · exact h
      rw [if_neg hdx, if_neg hdx, if_pos hreg]
  | cons q pre ih =>
    intro acc hpre
    have hq := hpre q (List.mem_cons_self q _)
    have hrest : ∀ q' ∈ pre, ¬ (q'.headD "" = "QSO:" ∧ 11 ≤ q'.length ∧
        (is_dx_callsign (q'.getD 5 "") = true ∨
         is_non_la_state_province S (q'.getD 7 "") = true)) :=
      fun q' hq' => hpre q' (List.mem_cons_of_mem q hq')
    show determine_location_type_go P S hs hf (q :: (pre ++ l :: post)) acc = _
    unfold determine_location_type_go
    by_cases hskip : q.headD "" ≠ "QSO:" ∨ q.length < 11
    · rw [if_pos hskip]; exact ih acc hrest
    · rw [if_neg hskip]
      push_neg at hskip
      have hndx : ¬ is_dx_callsign (q.getD 5 "") = true :=
        fun h => hq ⟨hskip.1, by omega, Or.inl h⟩
      have hnreg : ¬ is_non_la_state_province S (q.getD 7 "") = true :=
        fun h => hq ⟨hskip.1, by omega, Or.inr h⟩
      rw [if_neg hndx, if_neg hnreg]
      by_cases hpar : is_la_parish P (q.getD 7 "") = true
      · rw [if_pos hpar]; exact ih _ hrest
      · rw [if_neg hpar]; exact ih _ hrest

/-- Claim C4 (amended): location-class derivation is a first-match scan, not
a whole-log precedence.  For every log, the first contact (in file order)
that either has a DX-classified sending callsign or a Regional (non-LA) sent
location decides the class — DX for the former, non-LA for the latter —
regardless of any later contact; only when no contact triggers either does
the Local fixed/rover resolution run.  In particular a log whose first
contact has a Regional sent location and whose later contact has a Foreign
sending callsign resolves to Regional, not Foreign. -/
theorem C4_first_match_scan
    (P S : List String) (hs : String) (hf : Bool)
    (pre : List (List String)) (l : List String) (post : List (List String))
    (hql : l.headD "" = "QSO:") (hlen : 11 ≤ l.length)
    (htrig : is_dx_callsign (l.getD 5 "") = true ∨
      is_non_la_state_province S (l.getD 7 "") = true)
    (hpre : ∀ q ∈ pre, ¬ (q.headD "" = "QSO:" ∧ 11 ≤ q.length ∧
        (is_dx_callsign (q.getD 5 "") = true ∨
         is_non_la_state_province S (q.getD 7 "") = true))) :
    determine_location_type P S (pre ++ l :: post) hs hf =
      (if is_dx_callsign (l.getD 5 "") then LOC_DX else LOC_NON_LA) :=
  determine_location_type_go_first_match P S hs hf l post hql hlen htrig pre [] hpre

/-- Claim C4 (amended) witness: a non-triggering Local contact followed by a
DX-sending contact resolves the log to `LOC_DX`. -/
theorem C4_first_match_scan_witness :
    determine_location_type SAMPLE_PARISHES SAMPLE_STATES
      [C4_line_local, C4_line_dx] "FIXED" false = LOC_DX :=
  (C4_first_match_scan SAMPLE_PARISHES SAMPLE_STATES "FIXED" false
    [C4_line_local] C4_line_dx [] (by decide) (by decide)
    (by decide) (by decide)).trans (by decide)

/-- Claim C6 (amended): the overall ranking is the input collection sorted by
final score descending by a stable sort and nothing else — the output is a
permutation of the input with scores in non-increasing order, and it is a
pure function of the input list, so re-running on the same input order is
deterministic; but there is no secondary tie-break key, equal-score logs
keep their input order, so a permutation of the input may permute the rank
assignments of tied logs (see the counterexample). -/
theorem C6_sort_by_score_descending (l : List ScoreResult) :
    (sortAllScores l).Perm l ∧
    List.Sorted (fun a b => b.final_score ≤ a.final_score) (sortAllScores l) :=
  ⟨List.perm_insertionSort _ l, List.sorted_insertionSort _ l⟩

/-- Helper for claim C8: no ambiguous DX QTH code contains a slash. -/
theorem ambiguous_no_slash : ∀ q ∈ ambiguous_dx_qth, sContains q '/' = false := by
  decide

/-- Helper for claim C8: `needs_dx_suffix` only returns 0, 1 or 2. -/
theorem needs_dx_suffix_cases (parts : List String) :
    needs_dx_suffix parts = 0 ∨ needs_dx_suffix parts = 1 ∨
      needs_dx_suffix parts = 2 := by
  unfold needs_dx_suffix
  split_ifs <;> simp

/-- Helper for claim C8: a received QTH containing a slash is never in the
ambiguous set, so the received-side DX marking (change code 2) cannot apply
to a multi-location contact. -/
theorem needs_dx_suffix_ne_two (parts : List String)
    (hslash : sContains (parts.getD 10 "") '/' = true) :
    needs_dx_suffix parts ≠ 2 := by
  intro h2
  unfold needs_dx_suffix at h2
  split_ifs at h2
  · exact absurd h2 (by decide)
  · rename_i hrcvd
    exact absurd (ambiguous_no_slash _ hrcvd.2) (by rw [hslash]; decide)

/-- Claim C8: a contact line (11 whitespace fields) whose received location
splits into N slash-separated codes is reformatted into exactly N records,
each the canonical rebuild of the same contact — tag, band-converted
frequency, mode, date, time, slash-stripped callsigns, reports and sent QTH
(with the sent-side DX marker exactly when change code 1 applies) all
identical across the N records — differing only in the received location,
which takes each code in original left-to-right order.  The change code is
the one the preparation loop passes (`needs_dx_suffix`); a received location
containing a slash can never take the received-side DX marker (change
code 2).  The nonempty-codes hypothesis records that whitespace
re-tokenisation of the written line is faithful. -/
theorem C8_multi_location_split (parts : List String)
    (hlen : parts.length = 11)
    (hslash : sContains (parts.getD 10 "") '/' = true)
    (_hcodes : "" ∉ sSplitOn '/' (parts.getD 10 "")) :
    (reformat_qso_line parts (needs_dx_suffix parts)).length =
        (sSplitOn '/' (parts.getD 10 "")).length ∧
    ∀ k, k < (sSplitOn '/' (parts.getD 10 "")).length →
      (reformat_qso_line parts (needs_dx_suffix parts)).getD k [] =
        [parts.getD 0 "",
         toString (convert_khz_to_band (pyInt (parts.getD 1 ""))),
         parts.getD 2 "", parts.getD 3 "", parts.getD 4 "",
         (sSplitOn '/' (parts.getD 5 "")).headD "",
         parts.getD 6 "",
         (if needs_dx_suffix parts = 1 then parts.getD 7 "" ++ "DX"
          else parts.getD 7 ""),
         (sSplitOn '/' (parts.getD 8 "")).headD "",
         parts.getD 9 "",
         (sSplitOn '/' (parts.getD 10 "")).getD k ""] := by
  have hne2 : needs_dx_suffix parts ≠ 2 := needs_dx_suffix_ne_two parts hslash
  unfold reformat_qso_line
  rw [if_neg (by omega)]
  dsimp only
  constructor
  · exact List.length_map _ _
  · intro k hk
    have hk' : k < ((sSplitOn '/' (parts.getD 10 "")).map (fun qth =>
        if needs_dx_suffix parts = 0 then
          [parts.getD 0 "", toString (convert_khz_to_band (pyInt (parts.getD 1 ""))),
           parts.getD 2 "", parts.getD 3 "", parts.getD 4 "",
           (sSplitOn '/' (parts.getD 5 "")).headD "", parts.getD 6 "",
           parts.getD 7 "", (sSplitOn '/' (parts.getD 8 "")).headD "",
           parts.getD 9 "", qth]
        else if needs_dx_suffix parts = 1 then
          [parts.getD 0 "", toString (convert_khz_to_band (pyInt (parts.getD 1 ""))),
           parts.getD 2 "", parts.getD 3 "", parts.getD 4 "",
           (sSplitOn '/' (parts.getD 5 "")).headD "", parts.getD 6 "",
           parts.getD 7 "" ++ "DX", (sSplitOn '/' (parts.getD 8 "")).headD "",
           parts.getD 9 "", qth]
        else
          [parts.getD 0 "", toString (convert_khz_to_band (pyInt (parts.getD 1 ""))),
           parts.getD 2 "", parts.getD 3 "", parts.getD 4 "",
           (sSplitOn '/' (parts.getD 5 "")).headD "", parts.getD 6 "",
           parts.getD 7 "", (sSplitOn '/' (parts.getD 8 "")).headD "",
           parts.getD 9 "", qth ++ "DX"])).length := by
      rw [List.length_map]; exact hk
    rw [List.getD_eq_getElem _ _ hk', List.getElem_map,
        List.getD_eq_getElem _ _ hk]
    rcases needs_dx_suffix_cases parts with h0 | h1 | h2
    · simp only [h0]; simp
    · simp only [h1]; simp
    · exact absurd h2 hne2

/-- Claim C8 witness: the received location "ORLE/JEFF" yields exactly two
records; the second is identical to the first except that its received
location is "JEFF". -/
theorem C8_multi_location_split_witness :
    (reformat_qso_line C8_parts (needs_dx_suffix C8_parts)).length = 2 ∧
    (reformat_qso_line C8_parts (needs_dx_suffix C8_parts)).getD 1 [] =
      ["QSO:", "40", "PH", "2024-04-06", "1500", "W5AAA", "59", "ORLE",
       "K1XYZ", "59", "JEFF"] :=
  ⟨((C8_multi_location_split C8_parts (by decide) (by decide) (by decide)).1).trans
      (by decide),
   (((C8_multi_location_split C8_parts (by decide) (by decide) (by decide)).2 1
      (by decide))).trans (by decide)⟩

/-- Helper for claim C9: a line that is not a well-formed `LAQP-CATEGORY:`
line (wrong tag, no value, or fewer than four comma-separated codes) leaves
the four category fields of the scoring state unchanged. -/
theorem score_log_step_preserves_category
    (parishes states_provinces : List String) (r : ScoreResult)
    (parts : List String)
    (h : ¬ (parts.headD "" = "LAQP-CATEGORY:" ∧ 1 < parts.length ∧
        4 ≤ (sSplitOn ',' (parts.getD 1 "")).length)) :
    (score_log_step parishes states_provinces r parts).location_type = r.location_type ∧
    (score_log_step parishes states_provinces r parts).mode_category = r.mode_category ∧
    (score_log_step parishes states_provinces r parts).power_level = r.power_level ∧
    (score_log_step parishes states_provinces r parts).overlay = r.overlay := by
  cases parts with
  | nil => simp [score_log_step]
  | cons tag rest =>
    by_cases h1 : tag = "CALLSIGN:"
    · subst h1; simp [score_log_step]
    by_cases h2 : tag = "LAQP-CATEGORY:"
    · subst h2
      simp only [score_log_step, if_neg h1, if_pos rfl]
      split_ifs with htag hlen hsplit
      all_goals first
        | exact ⟨rfl, rfl, rfl, rfl⟩
        | exact absurd ⟨rfl, by assumption, by assumption⟩ h
    by_cases h3 : tag = "QSO:"
    · subst h3
      simp only [score_log_step, if_neg h1, if_neg h2, if_pos rfl]
      refine ⟨?_, ?_, ?_, ?_⟩ <;> simp only [apply_ite ScoreResult.location_type,
        apply_ite ScoreResult.mode_category, apply_ite ScoreResult.power_level,
        apply_ite ScoreResult.overlay] <;> simp
    · simp [score_log_step, h1, h2, h3]

/-- Helper for claim C9: the scoring read loop over lines none of which is a
well-formed category line leaves the four category fields unchanged. -/
theorem score_log_fold_preserves_category
    (parishes states_provinces : List String) :
    ∀ (lines : List (List String)),
      (∀ parts ∈ lines, ¬ (parts.headD "" = "LAQP-CATEGORY:" ∧ 1 < parts.length ∧
          4 ≤ (sSplitOn ',' (parts.getD 1 "")).length)) →
      ∀ r : ScoreResult,
        (lines.foldl (score_log_step parishes states_provinces) r).location_type
            = r.location_type ∧
        (lines.foldl (score_log_step parishes states_provinces) r).mode_category
            = r.mode_category ∧
        (lines.foldl (score_log_step parishes states_provinces) r).power_level
            = r.power_level ∧
        (lines.foldl (score_log_step parishes states_provinces) r).overlay
            = r.overlay := by
  intro lines
  induction lines with
  | nil => intro _ r; exact ⟨rfl, rfl, rfl, rfl⟩
  | cons p rest ih =>
    intro hl r
    have hp := hl p (List.mem_cons_self p rest)
    have hstep := score_log_step_preserves_category parishes states_provinces r p hp
    have hind := ih (fun q hq => hl q (List.mem_cons_of_mem p hq))
      (score_log_step parishes states_provinces r p)
    simp only [List.foldl_cons]
    exact ⟨hind.1.trans hstep.1, hind.2.1.trans hstep.2.1,
      hind.2.2.1.trans hstep.2.2.1, hind.2.2.2.trans hstep.2.2.2⟩

/-- Claim C9: if no line of the log is a well-formed `LAQP-CATEGORY:` line
(missing tag, missing value, or fewer than four comma-separated codes),
`score_log` still completes and scores under the default category — non-LA
location, mixed mode, low power, no overlay — so the non-Local multiplier
scope applies (multiplier count = distinct parishes worked) and no rover
bonus is added (final score = points × multipliers plus at most the N5LCC
bonus). -/
theorem C9_default_category_on_missing_tag
    (parishes states_provinces : List String) (lines : List (List String))
    (hl : ∀ parts ∈ lines, ¬ (parts.headD "" = "LAQP-CATEGORY:" ∧ 1 < parts.length ∧
        4 ≤ (sSplitOn ',' (parts.getD 1 "")).length)) :
    (score_log parishes states_provinces lines).location_type = LOC_NON_LA ∧
    (score_log parishes states_provinces lines).mode_category = MODE_MIXED ∧
    (score_log parishes states_provinces lines).power_level = POWER_LOW ∧
    (score_log parishes states_provinces lines).overlay = none ∧
    (score_log parishes states_provinces lines).multipliers =
      (score_log parishes states_provinces lines).parishes_worked.length ∧
    (score_log parishes states_provinces lines).final_score =
      (score_log parishes states_provinces lines).qso_points *
        (score_log parishes states_provinces lines).multipliers +
      (if (score_log parishes states_provinces lines).worked_n5lcc
        then N5LCC_BONUS else 0) := by
  obtain ⟨hL, hM, hP, hO⟩ :=
    score_log_fold_preserves_category parishes states_provinces lines hl {}
  cases hw : (lines.foldl (score_log_step parishes states_provinces) {}).worked_n5lcc <;>
    simp [score_log, hL, hM, hP, hO, hw,
      show LOC_NON_LA ∈ [LOC_DX, LOC_NON_LA] from by decide,
      show ¬ LOC_NON_LA = LOC_LA_ROVER from by decide,
      apply_ite ScoreResult.location_type, apply_ite ScoreResult.mode_category,
      apply_ite ScoreResult.power_level, apply_ite ScoreResult.overlay,
      apply_ite ScoreResult.multipliers, apply_ite ScoreResult.parishes_worked,
      apply_ite ScoreResult.final_score, apply_ite ScoreResult.qso_points,
      apply_ite ScoreResult.worked_n5lcc]

/-- Claim C9 witness: a concrete prepared log with a callsign header and one
QSO but no `LAQP-CATEGORY:` line. -/
theorem C9_default_category_on_missing_tag_witness :
    (score_log SAMPLE_PARISHES SAMPLE_STATES C9_lines).location_type = LOC_NON_LA ∧
    (score_log SAMPLE_PARISHES SAMPLE_STATES C9_lines).mode_category = MODE_MIXED ∧
    (score_log SAMPLE_PARISHES SAMPLE_STATES C9_lines).power_level = POWER_LOW ∧
    (score_log SAMPLE_PARISHES SAMPLE_STATES C9_lines).overlay = none ∧
    (score_log SAMPLE_PARISHES SAMPLE_STATES C9_lines).multipliers =
      (score_log SAMPLE_PARISHES SAMPLE_STATES C9_lines).parishes_worked.length ∧
    (score_log SAMPLE_PARISHES SAMPLE_STATES C9_lines).final_score =
      (score_log SAMPLE_PARISHES SAMPLE_STATES C9_lines).qso_points *
        (score_log SAMPLE_PARISHES SAMPLE_STATES C9_lines).multipliers +
      (if (score_log SAMPLE_PARISHES SAMPLE_STATES C9_lines).worked_n5lcc
        then N5LCC_BONUS else 0) :=
  C9_default_category_on_missing_tag SAMPLE_PARISHES SAMPLE_STATES C9_lines (by decide)

/-- Helper for claim C10: `add_error` re-establishes the invariant
unconditionally — it appends to the error list and clears validity. -/
theorem VRInv_add_error (r : ValidationResult) (m : String) :
    VRInv (add_error r m) := by
  simp [VRInv, add_error]

/-- Helper for claim C10: `add_warning` preserves the invariant — it never
touches validity, errors or the invalid-QSO count. -/
theorem VRInv_add_warning (r : ValidationResult) (m : String)
    (h : VRInv r) : VRInv (add_warning r m) := by
  simpa [VRInv, add_warning] using h

/-- Helper for claim C10: the invariant descends into both branches of a
conditional. -/
theorem VRInv_ite {c : Prop} [Decidable c] {a b : ValidationResult}
    (ha : VRInv a) (hb : VRInv b) : VRInv (if c then a else b) := by
  split <;> assumption

/-- Helper for claim C10: the invariant only inspects validity, the error
list and the invalid-QSO count, so any update leaving those three fields
unchanged preserves it. -/
theorem VRInv_congr {r r' : ValidationResult} (hv : r'.is_valid = r.is_valid)
    (he : r'.errors = r.errors) (hc : r'.invalid_qso_count = r.invalid_qso_count)
    (h : VRInv r) : VRInv r' := by
  unfold VRInv at h ⊢
  rw [hv, he, hc]
  exact h

/-- Helper for claim C10: forcing `is_valid := false` when the invalid-QSO
count is positive preserves the invariant, because a positive count
certifies a recorded error. -/
theorem VRInv_force_invalid {r : ValidationResult} (h : VRInv r)
    (hc : 0 < r.invalid_qso_count) : VRInv { r with is_valid := false } := by
  unfold VRInv at h ⊢
  refine ⟨?_, fun _ => h.2 hc⟩
  constructor
  · intro hh; cases hh
  · intro he; exact absurd he (h.2 hc)

/-- Helper for claim C10: the final verdict step of `validate_log_file`
(source lines 306-307) preserves the invariant. -/
theorem VRInv_final_ite (r : ValidationResult) (h : VRInv r) :
    VRInv (if 0 < r.invalid_qso_count then { r with is_valid := false } else r) := by
  split
  · exact VRInv_force_invalid h (by assumption)
  · exact h

/-- Helper for claim C10: descent through a conditional on the scan state. -/
theorem VRInv_ite_result {c : Prop} [Decidable c] {a b : VScan}
    (ha : VRInv a.result) (hb : VRInv b.result) :
    VRInv (if c then a else b).result := by
  split <;> assumption

/-- Helper for claim C10: every line handled by the validator's read loop
preserves the invariant. -/
theorem validate_log_step_inv (parishes states_provinces : List String)
    (s : VScan) (parts : List String)
    (h : VRInv s.result) :
    VRInv (validate_log_step parishes states_provinces s parts).result := by
  cases parts with
  | nil => exact h
  | cons tag rest =>
    unfold validate_log_step
    repeat' (first
      | exact h
      | exact VRInv_add_error _ _
      | apply VRInv_ite_result)

/-- Helper for claim C10: the whole read loop preserves the invariant. -/
theorem validate_log_fold_inv (parishes states_provinces : List String) :
    ∀ (lines : List (List String)) (s : VScan), VRInv s.result →
      VRInv (lines.foldl (validate_log_step parishes states_provinces) s).result := by
  intro lines
  induction lines with
  | nil => intro s h; exact h
  | cons p rest ih =>
    intro s h
    simp only [List.foldl_cons]
    exact ih _ (validate_log_step_inv parishes states_provinces s p h)

/-- Helper for claim C10: the post-loop checks (required headers, mode
category, web-form cross-checks, final verdict) preserve the invariant. -/
theorem validate_log_finish_inv (upload : Bool) (s : VScan)
    (form_email form_mode form_power form_station form_overlay : Option String)
    (h : VRInv s.result) :
    VRInv (validate_log_finish upload s form_email form_mode form_power
      form_station form_overlay) := by
  simp only [validate_log_finish]
  repeat' (first
    | exact h
    | exact VRInv_add_error _ _
    | apply VRInv_final_ite
    | apply VRInv_ite)

/-- Claim C10: for every input and option combination, the
`ValidationResult` returned by `validate_log_file` is valid exactly when its
error list is empty — it starts valid with no errors, `add_error` both
appends and invalidates, `add_warning` never changes validity, and no
operation of the validator resets validity to true (the final
`invalid_qso_count` step only re-asserts invalidity already recorded by an
`add_error`). -/
theorem C10_validity_iff_no_errors (upload : Bool)
    (parishes states_provinces : List String) (lines : List (List String))
    (form_email form_mode form_power form_station form_overlay : Option String) :
    (validate_log_file upload parishes states_provinces lines form_email
        form_mode form_power form_station form_overlay).is_valid = true ↔
    (validate_log_file upload parishes states_provinces lines form_email
        form_mode form_power form_station form_overlay).errors = [] := by
  have hinit : VRInv (({} : VScan).result) := by
    constructor
    · simp
    · intro hc; exact absurd hc (by simp)
  have hfold := validate_log_fold_inv parishes states_provinces lines {} hinit
  exact (validate_log_finish_inv upload _ form_email form_mode form_power
    form_station form_overlay hfold).1
